import Mathlib

/-!
Shallow embedding of the `todo-app` terminal client core
(`crates/todo-tui/src/main.rs` and `crates/todo-common/src/lib.rs`):
domain types, the priority-cycling steps, the list-navigation arithmetic,
the mode-dependent key handlers, the event drain, and the action
dispatcher worker. Machine integers (`i64` ids) are modelled as `Int`;
`usize` arithmetic that can underflow is modelled with `Option`, `none`
standing for the arithmetic fault (panic under checked arithmetic).
-/

namespace TodoApp

/-- `Priority` from `todo-common/src/lib.rs` (default `Low`). -/
inductive Priority
  | Low
  | Medium
  | High
deriving DecidableEq, Repr

/-- `Task` from `todo-common/src/lib.rs`; `id: i64` modelled as `Int`. -/
structure Task where
  id : Int
  text : String
  done : Bool
  priority : Priority
deriving DecidableEq, Repr

/-- `Filter` from `todo-common/src/lib.rs` (default `All`). -/
inductive Filter
  | All
  | Todo
  | Done
  | Priority (p : Priority)
deriving DecidableEq, Repr

/-- `TaskQuery` from `todo-common/src/lib.rs`. -/
structure TaskQuery where
  done : Option Bool
  priority : Option Priority
deriving DecidableEq, Repr

/-- `impl From<Filter> for TaskQuery` from `todo-common/src/lib.rs`. -/
def TaskQuery.fromFilter : Filter → TaskQuery
  | .All => { done := none, priority := none }
  | .Todo => { done := some false, priority := none }
  | .Done => { done := some true, priority := none }
  | .Priority p => { done := none, priority := some p }

/-- The `match task.priority` in the Ctrl-a handlers of `todo-tui/src/main.rs`
(Normal mode lines 234-238, Filter mode lines 359-363): Low→Medium→High→Low. -/
def increasePriority : Priority → Priority
  | .Low => .Medium
  | .Medium => .High
  | .High => .Low

/-- The `match task.priority` in the Ctrl-x handlers of `todo-tui/src/main.rs`
(Normal mode lines 212-216, Filter mode lines 346-350): Low→High, Medium→Low,
High→Medium. -/
def decreasePriority : Priority → Priority
  | .Low => .High
  | .Medium => .Low
  | .High => .Medium

/-- Direction of a list-navigation keypress (Up/`k` versus Down/`j`). -/
inductive NavDir
  | up
  | down
deriving DecidableEq, Repr

/-- The shared wrap-around selection arithmetic of the Up/Down handlers in
`todo-tui/src/main.rs` (lines 181-206 for the task list, 314-338 for the
filter menu). `sel` is `ListState::selected()`; the handler always calls
`select(Some(i))` with the computed `i`, so a successful step returns
`some i`. The `usize` expression `len - 1` underflows when `len = 0`
(Up with `i == 0`, and the Down comparison `i >= len - 1`); that fault is
modelled as `none`. -/
def navStep (len : Nat) (d : NavDir) (sel : Option Nat) : Option Nat :=
  match d, sel with
  | _, none => some 0
  | .up, some i =>
    if i = 0 then
      (if len = 0 then none else some (len - 1))
    else
      some (i - 1)
  | .down, some i =>
    if len = 0 then none
    else some (if len - 1 ≤ i then 0 else i + 1)

/-- A sequence of navigation keypresses, threading the selection; `none`
means some press hit the underflow fault. -/
def navSeq (len : Nat) : List NavDir → Option Nat → Option (Option Nat)
  | [], sel => some sel
  | d :: ds, sel =>
    match navStep len d sel with
    | none => none
    | some i => navSeq len ds (some i)

/-- On a non-empty list, one navigation step from an in-range (or unset)
selection succeeds and lands in range. -/
theorem navStep_lt (len : Nat) (hlen : 0 < len) (d : NavDir) (sel : Option Nat)
    (hsel : ∀ i ∈ sel, i < len) :
    ∃ j, navStep len d sel = some j ∧ j < len := by
  match d, sel with
  | .up, none =>
    exact ⟨0, rfl, hlen⟩
  | .down, none =>
    exact ⟨0, rfl, hlen⟩
  | .up, some i =>
    have hi : i < len := hsel i rfl
    by_cases h0 : i = 0
    · refine ⟨len - 1, ?_, ?_⟩
      · simp [navStep, h0, Nat.ne_of_gt hlen]
      · omega
    · refine ⟨i - 1, ?_, ?_⟩
      · simp [navStep, h0]
      · omega
  | .down, some i =>
    have hi : i < len := hsel i rfl
    by_cases hwrap : len - 1 ≤ i
    · refine ⟨0, ?_, hlen⟩
      simp [navStep, Nat.ne_of_gt hlen, hwrap]
    · refine ⟨i + 1, ?_, ?_⟩
      · simp [navStep, Nat.ne_of_gt hlen, hwrap]
      · omega

/-- On a non-empty list, a whole sequence of navigation steps from an
in-range (or unset) selection succeeds and lands in range. -/
theorem navSeq_lt (len : Nat) (hlen : 0 < len) (ds : List NavDir) (sel : Option Nat)
    (hsel : ∀ i ∈ sel, i < len) :
    ∃ out, navSeq len ds sel = some out ∧ ∀ i ∈ out, i < len := by
  induction ds generalizing sel with
  | nil => exact ⟨sel, rfl, hsel⟩
  | cons d ds ih =>
    obtain ⟨j, hj, hjlt⟩ := navStep_lt len hlen d sel hsel
    obtain ⟨out, hout, houtlt⟩ := ih (some j) (by simpa using hjlt)
    refine ⟨out, ?_, houtlt⟩
    simp [navSeq, hj, hout]

/-- `InputMode` from `todo-tui/src/main.rs` (default `Normal`). -/
inductive InputMode
  | Normal
  | Editing
  | Filter
deriving DecidableEq, Repr

/-- `Action` from `todo-tui/src/main.rs`. -/
inductive Action
  | Fetch (filter : Filter)
  | Create (text : String) (filter : Filter)
  | Delete (id : Int) (filter : Filter)
  | Update (id : Int) (text : Option String) (done : Option Bool)
      (priority : Option Priority) (filter : Filter)
deriving DecidableEq, Repr

/-- `TuiEvent` from `todo-tui/src/main.rs`. -/
inductive TuiEvent
  | TasksFetched (tasks : List Task)
  | Error (msg : String)
deriving DecidableEq, Repr

/-- `App` from `todo-tui/src/main.rs`. The three `ListState`s are modelled
by their `selected()` value. -/
structure App where
  tasks : List Task
  todo_state : Option Nat
  help_state : Option Nat
  filter_state : Option Nat
  input : String
  mode : InputMode
  filter : Filter
  currently_editing_id : Option Int
  priority : Priority
  help_size : Nat
  help_mode : InputMode
deriving DecidableEq, Repr

/-- The `App { tasks, ..Default::default() }` initialisation in `main`. -/
def initialApp (tasks : List Task) : App :=
  { tasks := tasks
    todo_state := none
    help_state := none
    filter_state := none
    input := ""
    mode := .Normal
    filter := .All
    currently_editing_id := none
    priority := .Low
    help_size := 0
    help_mode := .Normal }

/-- `get_menu_filters` from `todo-tui/src/main.rs`. -/
def get_menu_filters (cur_priority : Priority) : List Filter :=
  [Filter.All, Filter.Todo, Filter.Done, Filter.Priority cur_priority]

/-- The key codes the handlers of `todo-tui/src/main.rs` match on. -/
inductive KeyCode
  | char (c : Char)
  | enter
  | esc
  | backspace
  | up
  | down
  | otherKey
deriving DecidableEq, Repr

/-- A key event: the code plus whether `KeyModifiers::CONTROL` is held
(the only modifier any handler guard inspects). -/
structure KeyEvent where
  code : KeyCode
  ctrl : Bool
deriving DecidableEq, Repr

/-- Result of handling one key event: `ok` carries the new state and the
actions sent on `action_tx` (in send order); `quitLoop` models the
`break` on `q`; `crash` models a panic (an `unwrap` failure or a `usize`
underflow). -/
inductive StepResult
  | ok (app : App) (sent : List Action)
  | quitLoop (app : App)
  | crash
deriving DecidableEq, Repr

/-- The Normal-mode Up/Down handlers (lines 181-206): navigate the task
list with wrap-around, `crash` on the empty-list `usize` underflow. -/
def todoNav (app : App) (d : NavDir) : StepResult :=
  match navStep app.tasks.length d app.todo_state with
  | some i => .ok { app with todo_state := some i } []
  | none => .crash

/-- The Filter-mode Up/Down handlers (lines 314-338): navigate the
four-entry menu with wrap-around. -/
def filterNav (app : App) (d : NavDir) : StepResult :=
  match navStep (get_menu_filters app.priority).length d app.filter_state with
  | some i => .ok { app with filter_state := some i } []
  | none => .crash

/-- The Normal-mode key handler of `todo-tui/src/main.rs` (lines 138-252). -/
def stepNormal (app : App) (k : KeyEvent) : StepResult :=
  match k.code with
  | .char c =>
    if c = 'q' then .quitLoop app
    else if c = 'r' then .ok app [.Fetch app.filter]
    else if c = 'i' then .ok { app with mode := .Editing } []
    else if c = 'e' then
      match app.todo_state with
      | some index =>
        match app.tasks.get? index with
        | some task =>
          .ok { app with
                currently_editing_id := some task.id
                mode := .Editing
                input := app.input ++ task.text } []
        | none => .ok app []
      | none => .ok app []
    else if c = 'd' then
      match app.todo_state with
      | some index =>
        match app.tasks.get? index with
        | some task => .ok app [.Delete task.id app.filter]
        | none => .ok app []
      | none => .ok app []
    else if c = 'f' then
      .ok { app with mode := .Filter, filter_state := some 0 } []
    else if c = 'k' then todoNav app .up
    else if c = 'j' then todoNav app .down
    else if c = 'x' ∧ k.ctrl = true then
      match app.todo_state with
      | some index =>
        match app.tasks.get? index with
        | some task =>
          .ok app [.Update task.id none none (some (decreasePriority task.priority)) app.filter]
        | none => .ok app []
      | none => .ok app []
    else if c = 'a' ∧ k.ctrl = true then
      match app.todo_state with
      | some index =>
        match app.tasks.get? index with
        | some task =>
          .ok app [.Update task.id none none (some (increasePriority task.priority)) app.filter]
        | none => .ok app []
      | none => .ok app []
    else .ok app []
  | .enter =>
    match app.todo_state with
    | some index =>
      match app.tasks.get? index with
      | some task => .ok app [.Update task.id none (some (!task.done)) none app.filter]
      | none => .ok app []
    | none => .ok app []
  | .up => todoNav app .up
  | .down => todoNav app .down
  | _ => .ok app []

/-- The Editing-mode key handler of `todo-tui/src/main.rs` (lines 253-295).
On Enter with an edit target, `tasks.iter().find(..).unwrap()` panics
(`crash`) when no task carries the target id. -/
def stepEditing (app : App) (k : KeyEvent) : StepResult :=
  match k.code with
  | .esc => .ok { app with mode := .Normal, input := "" } []
  | .char c => .ok { app with input := app.input.push c } []
  | .backspace => .ok { app with input := app.input.dropRight 1 } []
  | .enter =>
    match app.currently_editing_id with
    | some id =>
      match app.tasks.find? (fun t => t.id == id) with
      | some task =>
        .ok { app with
              currently_editing_id := none
              input := ""
              mode := .Normal }
          [.Update task.id (some app.input) (some task.done) none app.filter]
      | none => .crash
    | none =>
      .ok { app with input := "", mode := .Normal } [.Create app.input app.filter]
  | _ => .ok app []

/-- The Filter-mode key handler of `todo-tui/src/main.rs` (lines 296-367). -/
def stepFilter (app : App) (k : KeyEvent) : StepResult :=
  match k.code with
  | .esc => .ok { app with mode := .Normal } []
  | .enter =>
    match app.filter_state with
    | some index =>
      match (get_menu_filters app.priority).get? index with
      | some f => .ok { app with filter := f, mode := .Normal } [.Fetch f]
      | none => .ok { app with mode := .Normal } []
    | none => .ok { app with mode := .Normal } []
  | .up => filterNav app .up
  | .down => filterNav app .down
  | .char c =>
    if c = 'k' then filterNav app .up
    else if c = 'j' then filterNav app .down
    else if c = 'x' ∧ k.ctrl = true then
      match app.filter_state with
      | some index =>
        match (get_menu_filters app.priority).get? index with
        | some (Filter.Priority _) =>
          .ok { app with priority := decreasePriority app.priority } []
        | _ => .ok app []
      | none => .ok app []
    else if c = 'a' ∧ k.ctrl = true then
      match app.filter_state with
      | some index =>
        match (get_menu_filters app.priority).get? index with
        | some (Filter.Priority _) =>
          .ok { app with priority := increasePriority app.priority } []
        | _ => .ok app []
      | none => .ok app []
    else .ok app []
  | _ => .ok app []

/-- The mode dispatch `match app.mode` of the input loop (line 137). -/
def step (app : App) (k : KeyEvent) : StepResult :=
  match app.mode with
  | .Normal => stepNormal app k
  | .Editing => stepEditing app k
  | .Filter => stepFilter app k

/-- Run a list of key events from a state, collecting the actions sent;
`none` if some key crashed, processing stops at `q`. -/
def runKeys : App → List KeyEvent → Option (App × List Action)
  | app, [] => some (app, [])
  | app, k :: ks =>
    match step app k with
    | .crash => none
    | .quitLoop a => some (a, [])
    | .ok a sent =>
      match runKeys a ks with
      | none => none
      | some (a2, sent2) => some (a2, sent ++ sent2)

/-- Only the actions emitted by a key sequence. -/
def runActions (app : App) (ks : List KeyEvent) : Option (List Action) :=
  (runKeys app ks).map Prod.snd

/-- The event drain of the UI loop (lines 126-131): `TasksFetched`
replaces the snapshot, `Error` is only logged (`error!`), touching no
state. -/
def drainEvent (app : App) : TuiEvent → App
  | .TasksFetched tasks => { app with tasks := tasks }
  | .Error _ => app

/-- The remote client of `todo-tui/src/main.rs` (`fetch_tasks`,
`create_task`, `delete_task`, `update_task`), abstracted over the HTTP
layer: each call returns its domain result or an error message. -/
structure Remote where
  fetch_tasks : Filter → Except String (List Task)
  create_task : String → Except String Unit
  delete_task : Int → Except String Unit
  update_task : Int → Option String → Option Bool → Option Priority → Except String Unit

/-- The dispatcher worker body for one action (lines 79-114 of
`todo-tui/src/main.rs`): returns the events sent on `event_tx` (in order)
and the filters of the `fetch_tasks` calls issued. -/
def processAction (r : Remote) : Action → List TuiEvent × List Filter
  | .Fetch filter =>
    match r.fetch_tasks filter with
    | .ok tasks => ([.TasksFetched tasks], [filter])
    | .error e => ([.Error e], [filter])
  | .Create text filter =>
    match r.create_task text with
    | .error e => ([.Error e], [])
    | .ok _ =>
      match r.fetch_tasks filter with
      | .ok tasks => ([.TasksFetched tasks], [filter])
      | .error e => ([.Error e], [filter])
  | .Delete id filter =>
    match r.delete_task id with
    | .error e => ([.Error e], [])
    | .ok _ =>
      match r.fetch_tasks filter with
      | .ok tasks => ([.TasksFetched tasks], [filter])
      | .error e => ([.Error e], [filter])
  | .Update id text done priority filter =>
    match r.update_task id text done priority with
    | .error e => ([.Error e], [])
    | .ok _ =>
      match r.fetch_tasks filter with
      | .ok tasks => ([.TasksFetched tasks], [filter])
      | .error e => ([.Error e], [filter])

/-- Whether an action is a write (Create/Delete/Update, not Fetch). -/
def Action.isWrite : Action → Bool
  | .Fetch _ => false
  | .Create _ _ => true
  | .Delete _ _ => true
  | .Update _ _ _ _ _ => true

/-- The filter carried by an action (re-applied after a mutation). -/
def Action.attachedFilter : Action → Filter
  | .Fetch f => f
  | .Create _ f => f
  | .Delete _ f => f
  | .Update _ _ _ _ f => f

/-- The result of the write an action performs (`Except.ok ()` for the
read-only `Fetch`, which performs no write). -/
def writeResult (r : Remote) : Action → Except String Unit
  | .Fetch _ => .ok ()
  | .Create text _ => r.create_task text
  | .Delete id _ => r.delete_task id
  | .Update id text done priority _ => r.update_task id text done priority

/-- One call to the remote service, as recorded in a trace. -/
inductive RemoteCall
  | fetch (filter : Filter)
  | create (text : String)
  | delete (id : Int)
  | update (id : Int) (text : Option String) (done : Option Bool) (priority : Option Priority)
deriving DecidableEq, Repr

/-- The remote calls the worker issues while processing one action: the
write (or the read, for `Fetch`), then the follow-up read only when the
write succeeded. -/
def actionCalls (r : Remote) : Action → List RemoteCall
  | .Fetch f => [.fetch f]
  | .Create text f =>
    .create text ::
      (match r.create_task text with
       | .ok _ => [.fetch f]
       | .error _ => [])
  | .Delete id f =>
    .delete id ::
      (match r.delete_task id with
       | .ok _ => [.fetch f]
       | .error _ => [])
  | .Update id text done priority f =>
    .update id text done priority ::
      (match r.update_task id text done priority with
       | .ok _ => [.fetch f]
       | .error _ => [])

/-- State of the UI/channel/worker system: `toSend` are the actions the
UI has yet to enqueue (in submission order), `queue` is the unbounded
mpsc channel contents (FIFO), `working` is `some cs` while the worker is
processing an action with remote calls `cs` still to issue, and `trace`
records the remote calls issued so far. -/
structure SysState where
  toSend : List Action
  queue : List Action
  working : Option (List RemoteCall)
  trace : List RemoteCall
deriving DecidableEq, Repr

/-- Initial system state: the UI will submit `as`, channel empty, the
single worker idle. -/
def initState (as : List Action) : SysState :=
  { toSend := as, queue := [], working := none, trace := [] }

/-- Interleaving semantics of the system in `main`: the UI may enqueue
its next action at any time (`action_tx.send`); the single worker, when
idle, dequeues the head of the channel (`action_rx.recv`), then issues
that action's remote calls one at a time, and only then becomes idle
again (the `while let` loop processes one action to completion before
receiving the next). -/
inductive SysStep (r : Remote) : SysState → SysState → Prop
  | enqueue (a : Action) (rest : List Action) (s : SysState) :
      s.toSend = a :: rest →
      SysStep r s { s with toSend := rest, queue := s.queue ++ [a] }
  | dequeue (a : Action) (rest : List Action) (s : SysState) :
      s.working = none → s.queue = a :: rest →
      SysStep r s { s with queue := rest, working := some (actionCalls r a) }
  | call (c : RemoteCall) (cs : List RemoteCall) (s : SysState) :
      s.working = some (c :: cs) →
      SysStep r s { s with working := some cs, trace := s.trace ++ [c] }
  | finish (s : SysState) :
      s.working = some [] →
      SysStep r s { s with working := none }

/-- The calls already issued plus every call still owed, in order. -/
def SysState.obligation (r : Remote) (s : SysState) : List RemoteCall :=
  s.trace ++ s.working.getD [] ++ (s.queue.map (actionCalls r)).flatten
    ++ (s.toSend.map (actionCalls r)).flatten

/-- Every system step preserves the obligation list. -/
theorem SysStep.obligation_eq {r : Remote} {s s2 : SysState}
    (h : SysStep r s s2) : s2.obligation r = s.obligation r := by
  cases h with
  | enqueue a rest s hts =>
    simp [SysState.obligation, hts, List.append_assoc]
  | dequeue a rest s hw hq =>
    simp [SysState.obligation, hw, hq, List.append_assoc]
  | call c cs s hw =>
    simp [SysState.obligation, hw, List.append_assoc]
  | finish s hw =>
    simp [SysState.obligation, hw]

/-- The obligation is invariant along any run. -/
theorem obligation_invariant {r : Remote} {s s2 : SysState}
    (h : Relation.ReflTransGen (SysStep r) s s2) :
    s2.obligation r = s.obligation r := by
  induction h with
  | refl => rfl
  | tail _ hstep ih => rw [hstep.obligation_eq, ih]

/-! ## Concrete fixtures used by witnesses and counterexamples -/

/-- A remote whose writes to `create` fail; reads succeed with `[]`. -/
def exRemoteFail : Remote :=
  { fetch_tasks := fun _ => .ok []
    create_task := fun _ => .error "boom"
    delete_task := fun _ => .ok ()
    update_task := fun _ _ _ _ => .ok () }

/-- Fixture task with id 7 and text "old". -/
def exTask7 : Task := { id := 7, text := "old", done := false, priority := .Low }

/-! ## Claims -/

/-- Claim C1: for every write action, a failed write emits exactly one
Error event and issues no follow-up read; a successful write issues
exactly one follow-up read with the action's attached filter and emits
exactly one event, TasksFetched on read success or Error on read
failure. -/
theorem dispatcher_write_semantics (r : Remote) (a : Action) (hw : a.isWrite = true) :
    (∀ e, writeResult r a = .error e →
      processAction r a = ([TuiEvent.Error e], [])) ∧
    (writeResult r a = .ok () →
      (∀ tasks, r.fetch_tasks a.attachedFilter = .ok tasks →
        processAction r a = ([TuiEvent.TasksFetched tasks], [a.attachedFilter])) ∧
      (∀ e, r.fetch_tasks a.attachedFilter = .error e →
        processAction r a = ([TuiEvent.Error e], [a.attachedFilter]))) := by
  cases a with
  | Fetch f => simp [Action.isWrite] at hw
  | Create text f =>
    refine ⟨fun e he => ?_, fun hok => ⟨fun tasks hts => ?_, fun e he => ?_⟩⟩
    · simp only [writeResult] at he
      simp [processAction, he]
    · simp only [writeResult] at hok
      simp only [Action.attachedFilter] at hts
      simp [processAction, Action.attachedFilter, hok, hts]
    · simp only [writeResult] at hok
      simp only [Action.attachedFilter] at he
      simp [processAction, Action.attachedFilter, hok, he]
  | Delete id f =>
    refine ⟨fun e he => ?_, fun hok => ⟨fun tasks hts => ?_, fun e he => ?_⟩⟩
    · simp only [writeResult] at he
      simp [processAction, he]
    · simp only [writeResult] at hok
      simp only [Action.attachedFilter] at hts
      simp [processAction, Action.attachedFilter, hok, hts]
    · simp only [writeResult] at hok
      simp only [Action.attachedFilter] at he
      simp [processAction, Action.attachedFilter, hok, he]
  | Update id text done priority f =>
    refine ⟨fun e he => ?_, fun hok => ⟨fun tasks hts => ?_, fun e he => ?_⟩⟩
    · simp only [writeResult] at he
      simp [processAction, he]
    · simp only [writeResult] at hok
      simp only [Action.attachedFilter] at hts
      simp [processAction, Action.attachedFilter, hok, hts]
    · simp only [writeResult] at hok
      simp only [Action.attachedFilter] at he
      simp [processAction, Action.attachedFilter, hok, he]

/-- Witness for C1: a failed create emits one Error and no read. -/
theorem dispatcher_write_semantics_witness :
    processAction exRemoteFail (Action.Create "x" Filter.All) = ([TuiEvent.Error "boom"], []) :=
  (dispatcher_write_semantics exRemoteFail (Action.Create "x" Filter.All) rfl).1 "boom" rfl

/-- Claim C2: in any interleaved run of UI enqueues and worker steps that
submits the actions `as` and runs to completion, the remote-call trace is
exactly the per-action call lists concatenated in submission order — the
single worker processes actions one at a time, in FIFO order, with no
reordering or interleaving of two actions' calls. -/
theorem worker_fifo_trace (r : Remote) (as : List Action) (s : SysState)
    (hrun : Relation.ReflTransGen (SysStep r) (initState as) s)
    (h1 : s.toSend = []) (h2 : s.queue = []) (h3 : s.working = none) :
    s.trace = (as.map (actionCalls r)).flatten := by
  have h := obligation_invariant hrun
  simp [SysState.obligation, initState, h1, h2, h3] at h
  exact h

/-- Witness for C2: a complete run of one Fetch action. -/
theorem worker_fifo_trace_witness :
    ({ toSend := [], queue := [], working := none,
       trace := [RemoteCall.fetch Filter.All] } : SysState).trace
      = (([Action.Fetch Filter.All]).map (actionCalls exRemoteFail)).flatten := by
  refine worker_fifo_trace exRemoteFail [Action.Fetch Filter.All] _ ?_ rfl rfl rfl
  refine Relation.ReflTransGen.head
    (SysStep.enqueue (Action.Fetch Filter.All) [] _ rfl) ?_
  refine Relation.ReflTransGen.head
    (SysStep.dequeue (Action.Fetch Filter.All) [] _ rfl rfl) ?_
  refine Relation.ReflTransGen.head
    (SysStep.call (RemoteCall.fetch Filter.All) [] _ rfl) ?_
  exact Relation.ReflTransGen.single (SysStep.finish _ rfl)

/-- Claim C3 counterexample: on an empty task list, pressing Down from an
unset selection sets the cursor to index 0 — it does not stay unset. -/
theorem empty_list_nav_selects_zero_cex :
    step (initialApp []) { code := .down, ctrl := false }
      = .ok { initialApp [] with todo_state := some 0 } []
    ∧ (some 0 : Option Nat) ≠ none := by
  exact ⟨rfl, by simp⟩

/-- Claim C3 amended: on an empty task list in Normal mode, a navigation
keypress from an unset selection sets the cursor to index 0; once the
cursor is set, Up at index 0 and Down anywhere hit the `len - 1` usize
underflow (a panic under checked arithmetic) — the cursor never "stays
unset". -/
theorem empty_list_nav_behavior (app : App) (hmode : app.mode = .Normal)
    (hempty : app.tasks = []) :
    (app.todo_state = none →
        step app { code := .up, ctrl := false }
          = .ok { app with todo_state := some 0 } []
      ∧ step app { code := .down, ctrl := false }
          = .ok { app with todo_state := some 0 } [])
    ∧ (app.todo_state = some 0 →
        step app { code := .up, ctrl := false } = .crash)
    ∧ (∀ i, app.todo_state = some i →
        step app { code := .down, ctrl := false } = .crash) := by
  refine ⟨fun hn => ⟨?_, ?_⟩, fun h0 => ?_, fun i hi => ?_⟩
  · simp [step, hmode, stepNormal, todoNav, hempty, hn, navStep]
  · simp [step, hmode, stepNormal, todoNav, hempty, hn, navStep]
  · simp [step, hmode, stepNormal, todoNav, hempty, h0, navStep]
  · simp [step, hmode, stepNormal, todoNav, hempty, hi, navStep]

/-- Witness for C3 amended: Up at index 0 on an empty list crashes. -/
theorem empty_list_nav_behavior_witness :
    step { initialApp [] with todo_state := some 0 } { code := .up, ctrl := false }
      = .crash :=
  (empty_list_nav_behavior { initialApp [] with todo_state := some 0 } rfl rfl).2.1 rfl

/-- Claim C4: the Editing-mode Esc handler clears the buffer but not the
edit target, so `e` (start editing task 7), Esc (cancel), `i` (new task),
Enter (submit) emits Update on task 7 — not Create — overwriting the
previously edited task with the new buffer contents. -/
theorem stale_edit_target_submit :
    runActions (initialApp [exTask7])
      [ { code := .down, ctrl := false },
        { code := .char 'e', ctrl := false },
        { code := .esc, ctrl := false },
        { code := .char 'i', ctrl := false },
        { code := .enter, ctrl := false } ]
      = some [Action.Update 7 (some "") (some false) none Filter.All] := by
  rfl

/-- Claim C5: on a non-empty list, from an in-range (or unset) selection,
any sequence of Up/Down steps succeeds and stays in `[0, len)`; Down from
`len - 1` wraps to 0 and Up from 0 wraps to `len - 1`. -/
theorem nonempty_nav_inbounds (len : Nat) (hlen : 0 < len) (ds : List NavDir)
    (sel : Option Nat) (hsel : ∀ i ∈ sel, i < len) :
    (∃ out, navSeq len ds sel = some out ∧ ∀ i ∈ out, i < len)
    ∧ navStep len .down (some (len - 1)) = some 0
    ∧ navStep len .up (some 0) = some (len - 1) := by
  refine ⟨navSeq_lt len hlen ds sel hsel, ?_, ?_⟩
  · simp [navStep, Nat.ne_of_gt hlen]
  · simp [navStep, Nat.ne_of_gt hlen]

/-- Witness for C5: length 2, three steps from an unset selection. -/
theorem nonempty_nav_inbounds_witness :
    (∃ out, navSeq 2 [NavDir.up, NavDir.down, NavDir.down] none = some out
      ∧ ∀ i ∈ out, i < 2)
    ∧ navStep 2 .down (some 1) = some 0
    ∧ navStep 2 .up (some 0) = some 1 :=
  nonempty_nav_inbounds 2 (by decide) [NavDir.up, NavDir.down, NavDir.down] none
    (by simp)

/-- Claim C6: priority cycling is a 3-cycle — increase maps
Low→Medium→High→Low, decrease is its exact inverse, increase applied
three times is the identity, and decrease after increase is the
identity. -/
theorem priority_three_cycle :
    (increasePriority .Low = .Medium ∧ increasePriority .Medium = .High
      ∧ increasePriority .High = .Low)
    ∧ (decreasePriority .Low = .High ∧ decreasePriority .High = .Medium
      ∧ decreasePriority .Medium = .Low)
    ∧ (∀ p, increasePriority (increasePriority (increasePriority p)) = p)
    ∧ (∀ p, decreasePriority (increasePriority p) = p) := by
  refine ⟨⟨rfl, rfl, rfl⟩, ⟨rfl, rfl, rfl⟩, fun p => ?_, fun p => ?_⟩ <;>
    cases p <;> rfl

/-- Claim C7: submitting in Editing mode with an edit target whose task
is in the snapshot emits `Update(id, some buffer, some task.done, none,
current filter)` and clears the buffer, clears the edit target, and
returns to Normal mode. -/
theorem editing_submit_update (app : App) (id : Int) (task : Task) (ctrl : Bool)
    (hmode : app.mode = .Editing)
    (hedit : app.currently_editing_id = some id)
    (hfind : app.tasks.find? (fun t => t.id == id) = some task) :
    step app { code := .enter, ctrl := ctrl }
      = .ok { app with currently_editing_id := none, input := "", mode := .Normal }
          [Action.Update task.id (some app.input) (some task.done) none app.filter]
    ∧ task.id = id := by
  constructor
  · simp [step, hmode, stepEditing, hedit, hfind]
  · have h := List.find?_some hfind
    simpa using h

/-- Fixture app editing task 7 with buffer "new". -/
def exApp7 : App :=
  { initialApp [exTask7] with
      mode := .Editing, currently_editing_id := some 7, input := "new" }

/-- Witness for C7: submitting "new" over task 7 ("old", not done). -/
theorem editing_submit_update_witness :
    step exApp7 { code := .enter, ctrl := false }
      = .ok { exApp7 with currently_editing_id := none, input := "", mode := .Normal }
          [Action.Update 7 (some "new") (some false) none Filter.All]
    ∧ (7 : Int) = 7 := by
  have h := editing_submit_update exApp7 7 exTask7 false rfl rfl (by decide)
  exact ⟨h.1, rfl⟩

/-- Fixture app in Filter mode with the menu cursor on entry 0 (`All`). -/
def exFilterApp : App := { initialApp [] with mode := .Filter, filter_state := some 0 }

/-- Claim C8 counterexample: with the menu cursor on entry 0, the
increase key is a no-op — the considered priority is not stepped. -/
theorem filter_cycle_cursor_guard_cex :
    step exFilterApp { code := .char 'a', ctrl := true } = .ok exFilterApp []
    ∧ increasePriority exFilterApp.priority ≠ exFilterApp.priority := by
  exact ⟨rfl, by decide⟩

/-- Claim C8 amended: in Filter-menu mode the cycle keys step the
considered priority only when the menu cursor sits on the fourth
(Priority) entry; from any other cursor position, or with no cursor, they
are no-ops; in every case the active Filter, the task list, and the rest
of the state are unchanged and no action is emitted. -/
theorem filter_cycle_behavior (app : App) (hmode : app.mode = .Filter) :
    (app.filter_state = some 3 →
        step app { code := .char 'a', ctrl := true }
          = .ok { app with priority := increasePriority app.priority } []
      ∧ step app { code := .char 'x', ctrl := true }
          = .ok { app with priority := decreasePriority app.priority } [])
    ∧ (∀ i, app.filter_state = some i → i ≠ 3 →
        step app { code := .char 'a', ctrl := true } = .ok app []
      ∧ step app { code := .char 'x', ctrl := true } = .ok app [])
    ∧ (app.filter_state = none →
        step app { code := .char 'a', ctrl := true } = .ok app []
      ∧ step app { code := .char 'x', ctrl := true } = .ok app []) := by
  refine ⟨fun h3 => ⟨?_, ?_⟩, fun i hi hne => ⟨?_, ?_⟩, fun hn => ⟨?_, ?_⟩⟩
  · simp [step, hmode, stepFilter, h3, get_menu_filters]
  · simp [step, hmode, stepFilter, h3, get_menu_filters]
  · rcases i with _ | _ | _ | _ | n <;>
      simp_all [step, stepFilter, get_menu_filters]
  · rcases i with _ | _ | _ | _ | n <;>
      simp_all [step, stepFilter, get_menu_filters]
  · simp [step, hmode, stepFilter, hn]
  · simp [step, hmode, stepFilter, hn]

/-- Fixture app in Filter mode with the cursor on the Priority entry. -/
def exFilterApp3 : App := { initialApp [] with mode := .Filter, filter_state := some 3 }

/-- Witness for C8 amended: cursor on the Priority entry, increase steps
Low to Medium. -/
theorem filter_cycle_behavior_witness :
    step exFilterApp3 { code := .char 'a', ctrl := true }
      = .ok { exFilterApp3 with priority := Priority.Medium } [] :=
  ((filter_cycle_behavior exFilterApp3 rfl).1 rfl).1

/-- Claim C9: draining an Error event leaves the entire App state — task
list snapshot, filter, mode, and every other field — unchanged. -/
theorem drain_error_frame (app : App) (msg : String) :
    drainEvent app (.Error msg) = app := rfl

/-- Claim C10: submitting in Editing mode with an edit target whose id is
absent from the snapshot panics (the `find(..).unwrap()` fails) instead
of emitting an action. -/
theorem editing_submit_missing_task_crash (app : App) (id : Int) (ctrl : Bool)
    (hmode : app.mode = .Editing)
    (hedit : app.currently_editing_id = some id)
    (hfind : app.tasks.find? (fun t => t.id == id) = none) :
    step app { code := .enter, ctrl := ctrl } = .crash := by
  simp [step, hmode, stepEditing, hedit, hfind]

/-- Fixture app editing id 7 while the snapshot is empty. -/
def exAppGone : App := { initialApp [] with mode := .Editing, currently_editing_id := some 7 }

/-- Witness for C10: submitting while the edited task is gone crashes. -/
theorem editing_submit_missing_task_crash_witness :
    step exAppGone { code := .enter, ctrl := false } = .crash :=
  editing_submit_missing_task_crash exAppGone 7 false rfl rfl rfl

end TodoApp
